import Mathlib

/-!
Verification of the CuraFrame constraint-evaluation engine
(src/cura_frame/core.py and src/cura_frame/comparators.py).

The Python code is shallowly embedded: numeric values (Python floats/ints)
are modelled as rationals, Python runtime values flowing through the engine
as the inductive `PyVal`, raisable comparators as functions into
`Except String Bool`, and the engine's mutable state (its evaluation
history) by explicit state passing.
-/

namespace Cura

/-- Python runtime values handled by the engine: the `None` sentinel,
booleans, numbers (floats/ints abstracted as rationals), strings, and the
tuple shapes used as thresholds or observed values. -/
inductive PyVal where
  | none : PyVal
  | bool : Bool → PyVal
  | num : ℚ → PyVal
  | str : String → PyVal
  | pair : ℚ → ℚ → PyVal
  | triple : ℚ → ℚ → ℚ → PyVal
deriving DecidableEq, Repr

/-- Python's `type(x).__name__`, as used in the uniform comparison-error
message of `Constraint.evaluate`. -/
def PyVal.typeName : PyVal → String
  | PyVal.none => "NoneType"
  | PyVal.bool _ => "bool"
  | PyVal.num _ => "float"
  | PyVal.str _ => "str"
  | PyVal.pair _ _ => "tuple"
  | PyVal.triple _ _ _ => "tuple"

/-- Violation severity levels (core.py `Severity`). -/
inductive Severity where
  | critical : Severity
  | severe : Severity
  | warning : Severity
deriving DecidableEq, Repr

/-- Outcome of constraint evaluation (core.py `EvaluationStatus`). -/
inductive EvaluationStatus where
  | accepted : EvaluationStatus
  | rejected : EvaluationStatus
  | indeterminate : EvaluationStatus
deriving DecidableEq, Repr

/-- Source and reliability of a constraint (core.py `Provenance`). -/
structure Provenance where
  source_type : String
  confidence : ℚ
  references : List String
  last_validated : Option String
deriving DecidableEq, Repr

/-- core.py `Provenance.is_well_established` with its default
threshold 0.8: high confidence AND at least three references. -/
def Provenance.is_well_established (p : Provenance) : Bool :=
  decide (p.confidence ≥ 4/5) && decide (p.references.length ≥ 3)

/-- core.py `Provenance.requires_verification` with its default
threshold 0.6. -/
def Provenance.requires_verification (p : Provenance) : Bool :=
  decide (p.confidence < 3/5)

/-- A comparator: Python `Callable[[Any, Any], bool]` that may raise
`TypeError`/`ValueError`; raising is modelled by `Except.error` carrying
the exception message. -/
abbrev Comparator := PyVal → PyVal → Except String Bool

/-- A single evaluative boundary (core.py `Constraint`). -/
structure Constraint where
  name : String
  threshold : PyVal
  comparator : Comparator
  rationale : String
  severity : Severity
  provenance : Option Provenance

/-- core.py `Constraint.evaluate`: run the comparator on
(value, threshold); any `TypeError`/`ValueError` from the comparator is
caught and re-raised as the uniform `TypeError` naming the constraint. -/
def Constraint.evaluate (c : Constraint) (value : PyVal) : Except String Bool :=
  match c.comparator value c.threshold with
  | Except.ok b => Except.ok b
  | Except.error _ =>
      Except.error ("Cannot compare " ++ value.typeName ++ " to " ++
        c.threshold.typeName ++ " in constraint '" ++ c.name ++ "'")

/-- core.py `Constraint.copy`: an independent constraint with the same
fields (shares the comparator and provenance references). -/
def Constraint.copy (c : Constraint) : Constraint :=
  { name := c.name
    threshold := c.threshold
    comparator := c.comparator
    rationale := c.rationale
    severity := c.severity
    provenance := c.provenance }

/-- core.py `Constraint.apply_modifier`: replace the threshold with
`modifier(self)`.  The Python method mutates in place; the embedding
returns the updated constraint. -/
def Constraint.apply_modifier (c : Constraint) (modifier : Constraint → PyVal) :
    Constraint :=
  { c with threshold := modifier c }

/-- Record of one constraint failing for one candidate (core.py
`Violation`). -/
structure Violation where
  constraint : String
  observed : PyVal
  threshold : PyVal
  rationale : String
  severity : Severity
  confidence : ℚ
deriving DecidableEq, Repr

/-- Complete outcome of one `evaluate()` call (core.py
`EvaluationResult`). -/
structure EvaluationResult where
  status : EvaluationStatus
  violations : List Violation
  warnings : List String
  notes : Option String
  candidate_name : Option String
deriving DecidableEq, Repr

/-- A hypothetical design concept (core.py `Candidate`).  Its `properties`
dict is modelled as a partial map from property names to Python values;
`Option.none` means the key is absent, `Option.some PyVal.none` means the
key is present but bound to Python's `None`. -/
structure Candidate where
  name : String
  properties : String → Option PyVal
  provenance : Option String
  uncertainty : String → Option (ℚ × ℚ)

/-- core.py `Candidate.get`: `self.properties.get(property_name, default)`.
Returns the stored value when the key is present (even if that value is
Python `None`), otherwise the default. -/
def Candidate.get (c : Candidate) (property_name : String) (default : PyVal) :
    PyVal :=
  match c.properties property_name with
  | Option.some v => v
  | Option.none => default

/-- core.py `Candidate.has`: `property_name in self.properties`. -/
def Candidate.has (c : Candidate) (property_name : String) : Bool :=
  (c.properties property_name).isSome

/-- Registry of named subgroups, each mapping constraint names to
threshold-adjustment functions (core.py `PopulationStratification`). -/
structure PopulationStratification where
  populations : String → Option (String → Option (Constraint → PyVal))

/-- The empty registry built by `PopulationStratification.__init__`. -/
def PopulationStratification.empty : PopulationStratification :=
  { populations := fun _ => Option.none }

/-- core.py `PopulationStratification.add_population`: register (or
overwrite) a population's modifier map. -/
def PopulationStratification.add_population (s : PopulationStratification)
    (name : String) (modifiers : String → Option (Constraint → PyVal)) :
    PopulationStratification :=
  { populations := fun m =>
      if m = name then Option.some modifiers else s.populations m }

/-- core.py `PopulationStratification.apply`: `None` or an unregistered
population returns the input list unchanged; otherwise a new list is
built in which each constraint having a registered modifier is copied and
adjusted, and every other constraint passes through. -/
def PopulationStratification.apply (s : PopulationStratification)
    (population : Option String) (constraints : List Constraint) :
    List Constraint :=
  match population with
  | Option.none => constraints
  | Option.some p =>
    match s.populations p with
    | Option.none => constraints
    | Option.some modifiers =>
        constraints.map (fun c =>
          match modifiers c.name with
          | Option.some m => (c.copy).apply_modifier m
          | Option.none => c)

/-- The engine (core.py `CuraFrame`): constraint list, stratifier, and the
append-only evaluation history. -/
structure CuraFrame where
  name : String
  safety_constraints : List Constraint
  population_stratifier : PopulationStratification
  evaluation_history : List EvaluationResult

/-- The loop of core.py `CuraFrame._validate_constraints`, carrying the
`seen_names` set (modelled as a list): raises
`ValueError("Duplicate constraint name: ...")` on the first repeat. -/
def validate_loop : List Constraint → List String → Except String Unit
  | [], _ => Except.ok ()
  | c :: rest, seen =>
    if c.name ∈ seen then
      Except.error ("Duplicate constraint name: " ++ c.name)
    else
      validate_loop rest (c.name :: seen)

/-- core.py `CuraFrame.__init__`: store the constraints, an empty
stratifier and empty history, then validate; a duplicate constraint name
makes construction fail. -/
def CuraFrame.make (safety_constraints : List Constraint)
    (name : Option String) : Except String CuraFrame :=
  match validate_loop safety_constraints [] with
  | Except.error e => Except.error e
  | Except.ok _ =>
      Except.ok
        { name := match name with
            | Option.some n => n
            | Option.none => "CuraFrame"
          safety_constraints := safety_constraints
          population_stratifier := PopulationStratification.empty
          evaluation_history := [] }

/-- The confidence recorded in a `Violation`: the provenance confidence
when present, 1.0 otherwise (core.py `CuraFrame.evaluate`). -/
def violation_confidence (c : Constraint) : ℚ :=
  match c.provenance with
  | Option.some p => p.confidence
  | Option.none => 1

/-- The non-strict-mode warning appended for a missing property
(core.py `CuraFrame.evaluate`). -/
def skip_warning (c : Constraint) : String :=
  "Property '" ++ c.name ++ "' missing, constraint skipped"

/-- The advisory warning appended for a violation of a constraint whose
provenance is not well established (core.py `CuraFrame.evaluate`; the
Python `:.2f` float formatting is abstracted by `toString`). -/
def low_confidence_warning (c : Constraint) (p : Provenance) : String :=
  "Violation of '" ++ c.name ++ "' based on moderate-confidence constraint (" ++
    toString p.confidence ++ ")"

/-- The `Violation` built by core.py `CuraFrame.evaluate` for a failed
constraint: observed value read from the candidate, effective threshold,
rationale, severity, and provenance-derived confidence. -/
def make_violation (cand : Candidate) (c : Constraint) : Violation :=
  { constraint := c.name
    observed := cand.get c.name PyVal.none
    threshold := c.threshold
    rationale := c.rationale
    severity := c.severity
    confidence := violation_confidence c }

/-- The per-constraint loop of core.py `CuraFrame.evaluate`, carrying the
accumulated violation and warning lists.  `Except.error notes` models
the two early `return` paths (strict-mode missing property, comparison
error), which build an INDETERMINATE result carrying `notes`. -/
def eval_loop (cand : Candidate) (strict : Bool) :
    List Constraint → List Violation → List String →
    Except String (List Violation × List String)
  | [], violations, warnings => Except.ok (violations, warnings)
  | c :: rest, violations, warnings =>
    let value := cand.get c.name PyVal.none
    if value = PyVal.none then
      if strict then
        Except.error ("Missing required property: " ++ c.name)
      else
        eval_loop cand strict rest violations (warnings ++ [skip_warning c])
    else
      match c.evaluate value with
      | Except.error e =>
          Except.error ("Constraint evaluation error: " ++ e)
      | Except.ok true => eval_loop cand strict rest violations warnings
      | Except.ok false =>
          let warnings2 :=
            match c.provenance with
            | Option.some p =>
                if p.is_well_established then warnings
                else warnings ++ [low_confidence_warning c p]
            | Option.none => warnings
          eval_loop cand strict rest (violations ++ [make_violation cand c])
            warnings2

/-- The `EvaluationResult` produced by one core.py `CuraFrame.evaluate`
call, as a function of the stratifier, the base constraints and the call
arguments. -/
def evaluation_outcome (stratifier : PopulationStratification)
    (base : List Constraint) (cand : Candidate) (population : Option String)
    (strict : Bool) : EvaluationResult :=
  let constraints := stratifier.apply population base
  match eval_loop cand strict constraints [] [] with
  | Except.error notes =>
      { status := EvaluationStatus.indeterminate
        violations := []
        warnings := []
        notes := Option.some notes
        candidate_name := Option.some cand.name }
  | Except.ok (violations, warnings) =>
      if violations.isEmpty then
        { status := EvaluationStatus.accepted
          violations := violations
          warnings := warnings
          notes := Option.some "All constraints satisfied"
          candidate_name := Option.some cand.name }
      else
        { status := EvaluationStatus.rejected
          violations := violations
          warnings := warnings
          notes := Option.some ("Failed " ++ toString violations.length ++
            " constraint(s)")
          candidate_name := Option.some cand.name }

/-- core.py `CuraFrame.evaluate`: compute the result, append it to the
engine's history, and return it.  The pair models (return value, engine
state after the call). -/
def CuraFrame.evaluate (e : CuraFrame) (cand : Candidate)
    (population : Option String) (strict : Bool) :
    EvaluationResult × CuraFrame :=
  let result := evaluation_outcome e.population_stratifier
    e.safety_constraints cand population strict
  (result, { e with evaluation_history := e.evaluation_history ++ [result] })

/-! The comparator library (comparators.py), on the `PyVal` universe.
Python's dynamic comparisons are modelled on the cases the engine
exercises: numbers compare with numbers and strings with strings, while a
mixed-type comparison raises `TypeError` (modelled as `Except.error`). -/

/-- comparators.py `less_than`: `value < threshold`. -/
def less_than : Comparator
  | PyVal.num a, PyVal.num b => Except.ok (decide (a < b))
  | PyVal.str a, PyVal.str b => Except.ok (decide (a < b))
  | v, t => Except.error ("'<' not supported between instances of '" ++
      v.typeName ++ "' and '" ++ t.typeName ++ "'")

/-- comparators.py `less_than_or_equal`: `value <= threshold`. -/
def less_than_or_equal : Comparator
  | PyVal.num a, PyVal.num b => Except.ok (decide (a ≤ b))
  | PyVal.str a, PyVal.str b => Except.ok (decide (a < b ∨ a = b))
  | v, t => Except.error ("'<=' not supported between instances of '" ++
      v.typeName ++ "' and '" ++ t.typeName ++ "'")

/-- comparators.py `greater_than`: `value > threshold`. -/
def greater_than : Comparator
  | PyVal.num a, PyVal.num b => Except.ok (decide (a > b))
  | PyVal.str a, PyVal.str b => Except.ok (decide (b < a))
  | v, t => Except.error ("'>' not supported between instances of '" ++
      v.typeName ++ "' and '" ++ t.typeName ++ "'")

/-- comparators.py `greater_than_or_equal`: `value >= threshold`. -/
def greater_than_or_equal : Comparator
  | PyVal.num a, PyVal.num b => Except.ok (decide (a ≥ b))
  | PyVal.str a, PyVal.str b => Except.ok (decide (b < a ∨ a = b))
  | v, t => Except.error ("'>=' not supported between instances of '" ++
      v.typeName ++ "' and '" ++ t.typeName ++ "'")

/-- comparators.py `within_range(value, bounds, inclusive)`: raises
`ValueError` when `lower > upper`, otherwise tests membership in the
closed or open interval.  (The Python NaN check has no counterpart on
rationals.) -/
def within_range (value : ℚ) (bounds : ℚ × ℚ) (inclusive : Bool) :
    Except String Bool :=
  if bounds.1 > bounds.2 then
    Except.error ("Invalid bounds: lower (" ++ toString bounds.1 ++
      ") > upper (" ++ toString bounds.2 ++ ")")
  else if inclusive then
    Except.ok (decide (bounds.1 ≤ value ∧ value ≤ bounds.2))
  else
    Except.ok (decide (bounds.1 < value ∧ value < bounds.2))

/-- `within_range` in the two-argument comparator position used by a
`Constraint` (Python's default `inclusive=True`); a value/threshold of the
wrong shape raises `TypeError`. -/
def within_range_cmp : Comparator
  | PyVal.num v, PyVal.pair lo hi => within_range v (lo, hi) true
  | v, t => Except.error ("within_range expects (float, tuple), got (" ++
      v.typeName ++ ", " ++ t.typeName ++ ")")

/-- comparators.py `selectivity_satisfied`: raises `ValueError` for a
non-positive Kd, otherwise tests `Kd_offtarget / Kd_ontarget >=
min_selectivity`. -/
def selectivity_satisfied (Kd_ontarget Kd_offtarget min_selectivity : ℚ) :
    Except String Bool :=
  if Kd_ontarget ≤ 0 ∨ Kd_offtarget ≤ 0 then
    Except.error "Kd values must be positive"
  else
    Except.ok (decide (Kd_offtarget / Kd_ontarget ≥ min_selectivity))

/-- comparators.py `probabilistic_satisfaction`: assuming a uniform
distribution over `[lower, upper]`, accept when the constraint holds with
the required confidence; degenerate cases return certainty directly. -/
def probabilistic_satisfaction (value_with_uncertainty : ℚ × ℚ × ℚ)
    (threshold confidence_level : ℚ) : Bool :=
  let lower := value_with_uncertainty.2.1
  let upper := value_with_uncertainty.2.2
  if upper ≤ threshold then true
  else if lower > threshold then false
  else decide ((threshold - lower) / (upper - lower) ≥ confidence_level)

/-- Modelled from the spec (section 4.1): the fraction of the uniform
interval `[lower, upper]` lying at or below `threshold` — the cumulative
distribution function of the uniform distribution, evaluated at
`threshold`.  Used only to compare `probabilistic_satisfaction` against
the spec's description. -/
def uniform_fraction_at_or_below (lower upper threshold : ℚ) : ℚ :=
  if upper ≤ threshold then 1
  else if threshold < lower then 0
  else (threshold - lower) / (upper - lower)

/-! Predicates describing how one constraint is handled by the evaluation
loop for a given candidate. -/

/-- The loop handles constraint `c` without an early return: if its
property is missing the mode is non-strict (skip path), and if it is
present the comparator call succeeds. -/
def completes_on (cand : Candidate) (strict : Bool) (c : Constraint) : Prop :=
  (cand.get c.name PyVal.none = PyVal.none → strict = false) ∧
  (cand.get c.name PyVal.none ≠ PyVal.none →
    (c.evaluate (cand.get c.name PyVal.none)).isOk = true)

instance (cand : Candidate) (strict : Bool) (c : Constraint) :
    Decidable (completes_on cand strict c) :=
  inferInstanceAs (Decidable
    ((cand.get c.name PyVal.none = PyVal.none → strict = false) ∧
     (cand.get c.name PyVal.none ≠ PyVal.none →
       (c.evaluate (cand.get c.name PyVal.none)).isOk = true)))

/-- Constraint `c` fails for the candidate: its property is present and
the comparator returns `false`. -/
def fails_on (cand : Candidate) (c : Constraint) : Bool :=
  if cand.get c.name PyVal.none = PyVal.none then false
  else
    match c.evaluate (cand.get c.name PyVal.none) with
    | Except.ok false => true
    | _ => false

/-- The warnings the loop appends while handling constraint `c` on its
non-early-return paths: the skip warning for a missing property, and the
advisory warning for a violation of a not-well-established constraint. -/
def warnings_of (cand : Candidate) (c : Constraint) : List String :=
  if cand.get c.name PyVal.none = PyVal.none then [skip_warning c]
  else
    match c.evaluate (cand.get c.name PyVal.none) with
    | Except.ok false =>
        (match c.provenance with
         | Option.some p =>
             if p.is_well_established then [] else [low_confidence_warning c p]
         | Option.none => [])
    | _ => []

/-! Concrete constraints, candidates and engines used to instantiate the
theorems (mirroring the end-to-end scenario of the spec and tests). -/

/-- A moderate-confidence provenance (confidence 0.5, no references). -/
def prov_low : Provenance :=
  { source_type := "QSPR_model"
    confidence := 1/2
    references := []
    last_validated := Option.none }

/-- Constraint `logP <= 4.0`. -/
def c_logP : Constraint :=
  { name := "logP"
    threshold := PyVal.num 4
    comparator := less_than_or_equal
    rationale := "Lipophilicity limit"
    severity := Severity.critical
    provenance := Option.none }

/-- Constraint `hERG_IC50 >= 10.0`, with moderate-confidence
provenance. -/
def c_hERG : Constraint :=
  { name := "hERG_IC50"
    threshold := PyVal.num 10
    comparator := greater_than_or_equal
    rationale := "Cardiotoxicity margin"
    severity := Severity.critical
    provenance := Option.some prov_low }

/-- Constraint `beta1_selectivity > 100.0`. -/
def c_beta1 : Constraint :=
  { name := "beta1_selectivity"
    threshold := PyVal.num 100
    comparator := greater_than
    rationale := "Selectivity requirement"
    severity := Severity.severe
    provenance := Option.none }

/-- A range constraint whose bounds are invalid (lower 5 > upper 1). -/
def c_bad_range : Constraint :=
  { name := "assay_window"
    threshold := PyVal.pair 5 1
    comparator := within_range_cmp
    rationale := "Window requirement"
    severity := Severity.critical
    provenance := Option.none }

/-- Candidate violating both `logP` and `hERG_IC50`. -/
def cand_fail : Candidate :=
  { name := "unsafe"
    properties := fun n =>
      if n = "logP" then Option.some (PyVal.num 6)
      else if n = "hERG_IC50" then Option.some (PyVal.num 5)
      else Option.none
    provenance := Option.none
    uncertainty := fun _ => Option.none }

/-- Candidate with `hERG_IC50` absent and the other properties valid. -/
def cand_missing : Candidate :=
  { name := "incomplete"
    properties := fun n =>
      if n = "logP" then Option.some (PyVal.num 3)
      else if n = "beta1_selectivity" then Option.some (PyVal.num 150)
      else Option.none
    provenance := Option.none
    uncertainty := fun _ => Option.none }

/-- Candidate whose `logP` violates its constraint and whose `hERG_IC50`
is a string, making the numeric comparison raise. -/
def cand_badtype : Candidate :=
  { name := "malformed"
    properties := fun n =>
      if n = "logP" then Option.some (PyVal.num 6)
      else if n = "hERG_IC50" then Option.some (PyVal.str "high")
      else if n = "beta1_selectivity" then Option.some (PyVal.num 150)
      else Option.none
    provenance := Option.none
    uncertainty := fun _ => Option.none }

/-- Candidate with a numeric `assay_window` value for the invalid-bounds
range constraint. -/
def cand_window : Candidate :=
  { name := "windowed"
    properties := fun n =>
      if n = "assay_window" then Option.some (PyVal.num 3) else Option.none
    provenance := Option.none
    uncertainty := fun _ => Option.none }

/-- Engine with the `logP` and `hERG_IC50` constraints. -/
def engine2 : CuraFrame :=
  { name := "CuraFrame"
    safety_constraints := [c_logP, c_hERG]
    population_stratifier := PopulationStratification.empty
    evaluation_history := [] }

/-- Engine with the `logP`, `hERG_IC50` and `beta1_selectivity`
constraints. -/
def engine3 : CuraFrame :=
  { name := "CuraFrame"
    safety_constraints := [c_logP, c_hERG, c_beta1]
    population_stratifier := PopulationStratification.empty
    evaluation_history := [] }

/-- Engine holding only the invalid-bounds range constraint. -/
def engine_range : CuraFrame :=
  { name := "CuraFrame"
    safety_constraints := [c_bad_range]
    population_stratifier := PopulationStratification.empty
    evaluation_history := [] }

/-- Unfolding helper: the result returned by `evaluate` is
`evaluation_outcome` of the engine's fields. -/
theorem evaluate_result_eq (e : CuraFrame) (cand : Candidate)
    (population : Option String) (strict : Bool) :
    (e.evaluate cand population strict).1 =
      evaluation_outcome e.population_stratifier e.safety_constraints cand
        population strict := rfl

/-- Master lemma: when every constraint in the list is handled without an
early return, the loop returns, appended to its accumulators, one
violation per failing constraint in list order and the per-constraint
warnings in list order. -/
theorem eval_loop_complete (cand : Candidate) (strict : Bool)
    (cs : List Constraint) (vs : List Violation) (ws : List String)
    (h : ∀ c ∈ cs, completes_on cand strict c) :
    eval_loop cand strict cs vs ws =
      Except.ok (vs ++ (cs.filter (fails_on cand)).map (make_violation cand),
        ws ++ cs.flatMap (warnings_of cand)) := by
  induction cs generalizing vs ws with
  | nil => simp [eval_loop]
  | cons c rest ih =>
    have hc : completes_on cand strict c := h c (List.mem_cons_self c rest)
    have hrest : ∀ c2 ∈ rest, completes_on cand strict c2 :=
      fun c2 hc2 => h c2 (List.mem_cons_of_mem c hc2)
    by_cases hv : cand.get c.name PyVal.none = PyVal.none
    · have hstrict : strict = false := hc.1 hv
      subst hstrict
      rw [eval_loop]
      simp only [hv, if_pos rfl, if_neg Bool.false_ne_true]
      rw [ih _ _ hrest]
      have hfail : fails_on cand c = false := by
        simp [fails_on, hv]
      have hwarn : warnings_of cand c = [skip_warning c] := by
        simp [warnings_of, hv]
      simp [hfail, hwarn, List.flatMap_cons, List.filter_cons]
    · have hok : (c.evaluate (cand.get c.name PyVal.none)).isOk = true :=
        hc.2 hv
      cases hev : c.evaluate (cand.get c.name PyVal.none) with
      | error e => rw [hev] at hok; simp [Except.isOk, Except.toBool] at hok
      | ok b =>
        cases b with
        | true =>
          rw [eval_loop]
          simp only [if_neg hv]
          rw [hev]
          rw [ih _ _ hrest]
          have hfail : fails_on cand c = false := by
            simp [fails_on, hv, hev]
          have hwarn : warnings_of cand c = [] := by
            simp [warnings_of, hv, hev]
          simp [hfail, hwarn, List.flatMap_cons, List.filter_cons]
        | false =>
          rw [eval_loop]
          simp only [if_neg hv]
          rw [hev]
          have hfail : fails_on cand c = true := by
            simp [fails_on, hv, hev]
          have hwarn :
              (match c.provenance with
               | Option.some p =>
                   if p.is_well_established then ws
                   else ws ++ [low_confidence_warning c p]
               | Option.none => ws) = ws ++ warnings_of cand c := by
            unfold warnings_of
            simp only [if_neg hv]
            rw [hev]
            cases hp : c.provenance with
            | none => simp
            | some p =>
              by_cases hw : p.is_well_established
              · simp [hw]
              · simp [hw]
          rw [hwarn]
          rw [ih (vs ++ [make_violation cand c]) (ws ++ warnings_of cand c) hrest]
          simp [hfail, List.flatMap_cons, List.filter_cons, List.append_assoc]

/-- Short-circuit lemma: in strict mode, once the loop reaches the first
constraint whose property is missing (every earlier constraint having a
present property and a successful comparison), it aborts with the missing
property error, whatever the accumulators and the remaining constraints. -/
theorem eval_loop_strict_missing (cand : Candidate)
    (pre post : List Constraint) (c : Constraint)
    (vs : List Violation) (ws : List String)
    (hpre : ∀ c2 ∈ pre, cand.get c2.name PyVal.none ≠ PyVal.none ∧
      (c2.evaluate (cand.get c2.name PyVal.none)).isOk = true)
    (hmiss : cand.get c.name PyVal.none = PyVal.none) :
    eval_loop cand true (pre ++ c :: post) vs ws =
      Except.error ("Missing required property: " ++ c.name) := by
  induction pre generalizing vs ws with
  | nil =>
    rw [List.nil_append, eval_loop]
    simp [hmiss]
  | cons c2 pre ih =>
    have hc2 := hpre c2 (List.mem_cons_self c2 pre)
    have hpre2 : ∀ c3 ∈ pre, cand.get c3.name PyVal.none ≠ PyVal.none ∧
        (c3.evaluate (cand.get c3.name PyVal.none)).isOk = true :=
      fun c3 hc3 => hpre c3 (List.mem_cons_of_mem c2 hc3)
    rw [List.cons_append, eval_loop]
    simp only [if_neg hc2.1]
    cases hev : c2.evaluate (cand.get c2.name PyVal.none) with
    | error e =>
      rw [hev] at hc2
      simp [Except.isOk, Except.toBool] at hc2
    | ok b =>
      cases b with
      | true => exact ih _ _ hpre2
      | false => exact ih _ _ hpre2

/-- Short-circuit lemma: in either mode, once the loop reaches the first
constraint whose comparator call fails (every earlier constraint having
completed normally), it aborts with the comparison-error notes, whatever
the accumulators and the remaining constraints. -/
theorem eval_loop_comparison_error (cand : Candidate) (strict : Bool)
    (pre post : List Constraint) (c : Constraint) (msg : String)
    (vs : List Violation) (ws : List String)
    (hpre : ∀ c2 ∈ pre, completes_on cand strict c2)
    (hval : cand.get c.name PyVal.none ≠ PyVal.none)
    (herr : c.evaluate (cand.get c.name PyVal.none) = Except.error msg) :
    eval_loop cand strict (pre ++ c :: post) vs ws =
      Except.error ("Constraint evaluation error: " ++ msg) := by
  induction pre generalizing vs ws with
  | nil =>
    rw [List.nil_append, eval_loop]
    simp only [if_neg hval]
    rw [herr]
  | cons c2 pre ih =>
    have hc2 : completes_on cand strict c2 := hpre c2 (List.mem_cons_self c2 pre)
    have hpre2 : ∀ c3 ∈ pre, completes_on cand strict c3 :=
      fun c3 hc3 => hpre c3 (List.mem_cons_of_mem c2 hc3)
    rw [List.cons_append, eval_loop]
    by_cases hv2 : cand.get c2.name PyVal.none = PyVal.none
    · have hstrict : strict = false := hc2.1 hv2
      subst hstrict
      simp only [hv2, if_pos rfl, if_neg Bool.false_ne_true]
      exact ih _ _ hpre2
    · simp only [if_neg hv2]
      have hok := hc2.2 hv2
      cases hev : c2.evaluate (cand.get c2.name PyVal.none) with
      | error e =>
        rw [hev] at hok
        simp [Except.isOk, Except.toBool] at hok
      | ok b =>
        cases b with
        | true => exact ih _ _ hpre2
        | false => exact ih _ _ hpre2

/-- Any INDETERMINATE result produced by `evaluate` carries empty
violation and warning lists: both early-return paths build the result
from scratch, discarding the accumulators. -/
theorem evaluation_outcome_indeterminate_empty
    (stratifier : PopulationStratification) (base : List Constraint)
    (cand : Candidate) (population : Option String) (strict : Bool)
    (h : (evaluation_outcome stratifier base cand population strict).status =
      EvaluationStatus.indeterminate) :
    (evaluation_outcome stratifier base cand population strict).violations = [] ∧
    (evaluation_outcome stratifier base cand population strict).warnings = [] := by
  cases heval : eval_loop cand strict (stratifier.apply population base) [] [] with
  | error notes => simp [evaluation_outcome, heval]
  | ok p =>
    obtain ⟨vs, ws⟩ := p
    by_cases hvs : vs.isEmpty <;>
      simp [evaluation_outcome, heval, hvs] at h

/-- C1: whenever `evaluate()` completes its constraint loop (no
strict-mode missing property and no comparison error), the result's
violations are exactly one `Violation` per failing constraint in
constraint-list order — observed value read from the candidate, effective
threshold, provenance confidence (1.0 without provenance) — and the
status is REJECTED iff some constraint's comparator returned false,
otherwise ACCEPTED with an empty violation list. -/
theorem claim1_loop_completion_characterizes_result
    (e : CuraFrame) (cand : Candidate) (population : Option String)
    (strict : Bool)
    (h : ∀ c ∈ e.population_stratifier.apply population e.safety_constraints,
      completes_on cand strict c) :
    (e.evaluate cand population strict).1.violations =
      ((e.population_stratifier.apply population e.safety_constraints).filter
        (fails_on cand)).map (make_violation cand) ∧
    ((e.evaluate cand population strict).1.status = EvaluationStatus.rejected ↔
      ∃ c ∈ e.population_stratifier.apply population e.safety_constraints,
        fails_on cand c = true) ∧
    ((e.evaluate cand population strict).1.status ≠ EvaluationStatus.rejected →
      (e.evaluate cand population strict).1.status =
        EvaluationStatus.accepted ∧
      (e.evaluate cand population strict).1.violations = []) := by
  have hml := eval_loop_complete cand strict
    (e.population_stratifier.apply population e.safety_constraints) [] [] h
  simp only [List.nil_append] at hml
  have hres : (e.evaluate cand population strict).1 =
      if (((e.population_stratifier.apply population e.safety_constraints).filter
          (fails_on cand)).map (make_violation cand)).isEmpty then
        { status := EvaluationStatus.accepted
          violations :=
            ((e.population_stratifier.apply population
              e.safety_constraints).filter (fails_on cand)).map
              (make_violation cand)
          warnings :=
            (e.population_stratifier.apply population
              e.safety_constraints).flatMap (warnings_of cand)
          notes := Option.some "All constraints satisfied"
          candidate_name := Option.some cand.name }
      else
        { status := EvaluationStatus.rejected
          violations :=
            ((e.population_stratifier.apply population
              e.safety_constraints).filter (fails_on cand)).map
              (make_violation cand)
          warnings :=
            (e.population_stratifier.apply population
              e.safety_constraints).flatMap (warnings_of cand)
          notes := Option.some ("Failed " ++
            toString (((e.population_stratifier.apply population
              e.safety_constraints).filter (fails_on cand)).map
              (make_violation cand)).length ++ " constraint(s)")
          candidate_name := Option.some cand.name } := by
    rw [evaluate_result_eq]
    simp only [evaluation_outcome, hml]
  by_cases hLe : (((e.population_stratifier.apply population
      e.safety_constraints).filter (fails_on cand)).map
      (make_violation cand)).isEmpty
  · have hnil := List.isEmpty_iff.mp hLe
    have hfnil : (e.population_stratifier.apply population
        e.safety_constraints).filter (fails_on cand) = [] :=
      List.map_eq_nil_iff.mp hnil
    have hnofail : ∀ c ∈ e.population_stratifier.apply population
        e.safety_constraints, ¬fails_on cand c = true :=
      List.filter_eq_nil_iff.mp hfnil
    rw [hres, if_pos hLe]
    refine ⟨rfl, ?_, fun _ => ⟨rfl, hnil⟩⟩
    constructor
    · intro hcontra
      exact absurd hcontra (by simp)
    · rintro ⟨c, hc, hfc⟩
      exact absurd hfc (hnofail c hc)
  · rw [hres, if_neg hLe]
    have hfne : (e.population_stratifier.apply population
        e.safety_constraints).filter (fails_on cand) ≠ [] := by
      intro hf
      exact hLe (by simp [hf])
    obtain ⟨x, hx⟩ := List.exists_mem_of_ne_nil _ hfne
    have hx2 := List.mem_filter.mp hx
    refine ⟨rfl, ?_, fun hne => absurd rfl hne⟩
    exact ⟨fun _ => ⟨x, hx2.1, hx2.2⟩, fun _ => rfl⟩

/-- Witness for C1: a candidate failing both constraints of a
two-constraint engine satisfies the completion hypothesis, and the
characterization applies. -/
theorem claim1_witness :
    (∀ c ∈ engine2.population_stratifier.apply Option.none
        engine2.safety_constraints, completes_on cand_fail true c) ∧
    ((engine2.evaluate cand_fail Option.none true).1.violations =
      ((engine2.population_stratifier.apply Option.none
        engine2.safety_constraints).filter (fails_on cand_fail)).map
        (make_violation cand_fail) ∧
    ((engine2.evaluate cand_fail Option.none true).1.status =
        EvaluationStatus.rejected ↔
      ∃ c ∈ engine2.population_stratifier.apply Option.none
        engine2.safety_constraints, fails_on cand_fail c = true) ∧
    ((engine2.evaluate cand_fail Option.none true).1.status ≠
        EvaluationStatus.rejected →
      (engine2.evaluate cand_fail Option.none true).1.status =
        EvaluationStatus.accepted ∧
      (engine2.evaluate cand_fail Option.none true).1.violations = [])) :=
  ⟨by decide,
   claim1_loop_completion_characterizes_result engine2 cand_fail Option.none
     true (by decide)⟩

/-- C2: in strict mode, the first constraint whose property is absent
makes `evaluate()` return INDETERMINATE with notes naming that property
and an empty violation list, regardless of the remaining constraints, and
the result is appended to the engine's history. -/
theorem claim2_strict_missing_short_circuit
    (e : CuraFrame) (cand : Candidate) (population : Option String)
    (pre post : List Constraint) (c : Constraint)
    (hsplit : e.population_stratifier.apply population e.safety_constraints =
      pre ++ c :: post)
    (hpre : ∀ c2 ∈ pre, cand.get c2.name PyVal.none ≠ PyVal.none ∧
      (c2.evaluate (cand.get c2.name PyVal.none)).isOk = true)
    (hmiss : cand.get c.name PyVal.none = PyVal.none) :
    (e.evaluate cand population true).1 =
      { status := EvaluationStatus.indeterminate
        violations := []
        warnings := []
        notes := Option.some ("Missing required property: " ++ c.name)
        candidate_name := Option.some cand.name } ∧
    (e.evaluate cand population true).2.evaluation_history =
      e.evaluation_history ++ [(e.evaluate cand population true).1] := by
  have hml := eval_loop_strict_missing cand pre post c [] [] hpre hmiss
  rw [← hsplit] at hml
  constructor
  · rw [evaluate_result_eq]
    simp only [evaluation_outcome, hml]
  · rfl

/-- Witness for C2: with `hERG_IC50` absent, the three-constraint engine
returns INDETERMINATE naming that property. -/
theorem claim2_witness :
    (engine3.population_stratifier.apply Option.none
        engine3.safety_constraints = [c_logP] ++ c_hERG :: [c_beta1]) ∧
    (cand_missing.get c_hERG.name PyVal.none = PyVal.none) ∧
    ((engine3.evaluate cand_missing Option.none true).1 =
      { status := EvaluationStatus.indeterminate
        violations := []
        warnings := []
        notes := Option.some ("Missing required property: " ++ c_hERG.name)
        candidate_name := Option.some cand_missing.name }) :=
  ⟨rfl, rfl,
   (claim2_strict_missing_short_circuit engine3 cand_missing Option.none
     [c_logP] [c_beta1] c_hERG rfl (by decide) rfl).1⟩

/-- C3: in either mode, the first constraint whose comparator call fails
(after its property was found present) makes `evaluate()` return — not
raise — an INDETERMINATE result whose notes carry the uniform comparison
error message, regardless of the remaining constraints. -/
theorem claim3_comparison_error_indeterminate
    (e : CuraFrame) (cand : Candidate) (population : Option String)
    (strict : Bool) (pre post : List Constraint) (c : Constraint)
    (msg : String)
    (hsplit : e.population_stratifier.apply population e.safety_constraints =
      pre ++ c :: post)
    (hpre : ∀ c2 ∈ pre, completes_on cand strict c2)
    (hval : cand.get c.name PyVal.none ≠ PyVal.none)
    (herr : c.evaluate (cand.get c.name PyVal.none) = Except.error msg) :
    (e.evaluate cand population strict).1 =
      { status := EvaluationStatus.indeterminate
        violations := []
        warnings := []
        notes := Option.some ("Constraint evaluation error: " ++ msg)
        candidate_name := Option.some cand.name } ∧
    (e.evaluate cand population strict).2.evaluation_history =
      e.evaluation_history ++ [(e.evaluate cand population strict).1] := by
  have hml := eval_loop_comparison_error cand strict pre post c msg [] []
    hpre hval herr
  rw [← hsplit] at hml
  constructor
  · rw [evaluate_result_eq]
    simp only [evaluation_outcome, hml]
  · rfl

/-- Witness for C3: a string-valued `hERG_IC50` makes the numeric
comparison raise, and the non-strict evaluation returns INDETERMINATE
with the wrapped error message in its notes. -/
theorem claim3_witness :
    (engine3.population_stratifier.apply Option.none
        engine3.safety_constraints = [c_logP] ++ c_hERG :: [c_beta1]) ∧
    (cand_badtype.get c_hERG.name PyVal.none ≠ PyVal.none) ∧
    (c_hERG.evaluate (cand_badtype.get c_hERG.name PyVal.none) =
      Except.error
        "Cannot compare str to float in constraint 'hERG_IC50'") ∧
    ((engine3.evaluate cand_badtype Option.none false).1 =
      { status := EvaluationStatus.indeterminate
        violations := []
        warnings := []
        notes := Option.some ("Constraint evaluation error: " ++
          "Cannot compare str to float in constraint 'hERG_IC50'")
        candidate_name := Option.some cand_badtype.name }) :=
  ⟨rfl, by decide, rfl,
   (claim3_comparison_error_indeterminate engine3 cand_badtype Option.none
     false [c_logP] [c_beta1] c_hERG
     "Cannot compare str to float in constraint 'hERG_IC50'" rfl
     (by decide) (by decide) rfl).1⟩

/-- C9: any INDETERMINATE result returned by `evaluate()` has an empty
violations list and an empty warnings list — findings accumulated before
the aborting constraint are discarded, not reported. -/
theorem claim9_indeterminate_discards_findings
    (e : CuraFrame) (cand : Candidate) (population : Option String)
    (strict : Bool)
    (h : (e.evaluate cand population strict).1.status =
      EvaluationStatus.indeterminate) :
    (e.evaluate cand population strict).1.violations = [] ∧
    (e.evaluate cand population strict).1.warnings = [] :=
  evaluation_outcome_indeterminate_empty e.population_stratifier
    e.safety_constraints cand population strict h

/-- C4 counterexample: the skip warning actually emitted by the code is
capitalized — "Property 'hERG_IC50' missing, constraint skipped" — and
differs from the lowercase form "property '<name>' missing, constraint
skipped" stated by the claim. -/
theorem claim4_counterexample :
    (engine3.evaluate cand_missing Option.none false).1.warnings =
      ["Property 'hERG_IC50' missing, constraint skipped"] ∧
    (["Property 'hERG_IC50' missing, constraint skipped"] : List String) ≠
      ["property 'hERG_IC50' missing, constraint skipped"] := by
  exact ⟨by decide, by decide⟩

/-- C4 amended: in non-strict mode, each constraint whose property is
absent appends the warning `skip_warning` — "Property '<name>' missing,
constraint skipped" — and contributes no violation, evaluation continuing
with the remaining constraints; if some present property violates its
constraint, the final status is still REJECTED. -/
theorem claim4_nonstrict_missing_skips
    (e : CuraFrame) (cand : Candidate) (population : Option String)
    (h : ∀ c ∈ e.population_stratifier.apply population e.safety_constraints,
      cand.get c.name PyVal.none ≠ PyVal.none →
      (c.evaluate (cand.get c.name PyVal.none)).isOk = true) :
    (e.evaluate cand population false).1.warnings =
      (e.population_stratifier.apply population
        e.safety_constraints).flatMap (warnings_of cand) ∧
    (e.evaluate cand population false).1.violations =
      ((e.population_stratifier.apply population
        e.safety_constraints).filter (fails_on cand)).map
        (make_violation cand) ∧
    (∀ c ∈ e.population_stratifier.apply population e.safety_constraints,
      cand.get c.name PyVal.none = PyVal.none →
      warnings_of cand c = [skip_warning c] ∧ fails_on cand c = false) ∧
    ((∃ c ∈ e.population_stratifier.apply population e.safety_constraints,
        fails_on cand c = true) →
      (e.evaluate cand population false).1.status =
        EvaluationStatus.rejected) := by
  have h2 : ∀ c ∈ e.population_stratifier.apply population
      e.safety_constraints, completes_on cand false c :=
    fun c hc => ⟨fun _ => rfl, h c hc⟩
  have hml := eval_loop_complete cand false
    (e.population_stratifier.apply population e.safety_constraints) [] [] h2
  simp only [List.nil_append] at hml
  refine ⟨?_, ?_, ?_, ?_⟩
  · rw [evaluate_result_eq]
    simp only [evaluation_outcome, hml]
    by_cases hLe : (((e.population_stratifier.apply population
        e.safety_constraints).filter (fails_on cand)).map
        (make_violation cand)).isEmpty <;> simp [hLe]
  · rw [evaluate_result_eq]
    simp only [evaluation_outcome, hml]
    by_cases hLe : (((e.population_stratifier.apply population
        e.safety_constraints).filter (fails_on cand)).map
        (make_violation cand)).isEmpty <;> simp [hLe]
  · intro c _ hmiss
    exact ⟨by simp [warnings_of, hmiss], by simp [fails_on, hmiss]⟩
  · rintro ⟨c, hc, hfc⟩
    rw [evaluate_result_eq]
    simp only [evaluation_outcome, hml]
    have hfne : (e.population_stratifier.apply population
        e.safety_constraints).filter (fails_on cand) ≠ [] := by
      intro hf
      have := List.filter_eq_nil_iff.mp hf c hc
      exact this hfc
    have hLe : (((e.population_stratifier.apply population
        e.safety_constraints).filter (fails_on cand)).map
        (make_violation cand)).isEmpty = false := by
      rw [Bool.eq_false_iff]
      intro hemp
      exact hfne (List.map_eq_nil_iff.mp (List.isEmpty_iff.mp hemp))
    simp [hLe]

/-- Witness for C4 (amended): `hERG_IC50` is absent and `logP` violates;
the run warns with the capitalized skip warning and is REJECTED. -/
theorem claim4_witness :
    (∀ c ∈ engine3.population_stratifier.apply Option.none
        engine3.safety_constraints,
      cand_fail.get c.name PyVal.none ≠ PyVal.none →
      (c.evaluate (cand_fail.get c.name PyVal.none)).isOk = true) ∧
    (∃ c ∈ engine3.population_stratifier.apply Option.none
        engine3.safety_constraints, fails_on cand_fail c = true) ∧
    ((engine3.evaluate cand_fail Option.none false).1.warnings =
      (engine3.population_stratifier.apply Option.none
        engine3.safety_constraints).flatMap (warnings_of cand_fail) ∧
     (engine3.evaluate cand_fail Option.none false).1.status =
      EvaluationStatus.rejected) :=
  ⟨by decide, by decide,
   (claim4_nonstrict_missing_skips engine3 cand_fail Option.none
      (by decide)).1,
   (claim4_nonstrict_missing_skips engine3 cand_fail Option.none
      (by decide)).2.2.2 (by decide)⟩

/-- C5: population adjustment is non-destructive — evaluating with
population `None`, then with any population, then with `None` again
yields identical first and third results, and the engine's base
constraint list is unchanged by the intervening calls. -/
theorem claim5_population_adjustment_nondestructive
    (e : CuraFrame) (cand : Candidate) (population : Option String)
    (strict : Bool) :
    (((((e.evaluate cand Option.none strict).2).evaluate cand population
        strict).2).evaluate cand Option.none strict).1 =
      (e.evaluate cand Option.none strict).1 ∧
    ((((e.evaluate cand Option.none strict).2).evaluate cand population
        strict).2).safety_constraints = e.safety_constraints ∧
    ((((e.evaluate cand Option.none strict).2).evaluate cand population
        strict).2).population_stratifier = e.population_stratifier :=
  ⟨rfl, rfl, rfl⟩

/-- The validation loop succeeds exactly when the remaining names are
pairwise distinct and disjoint from the names already seen. -/
theorem validate_loop_isOk_iff (cs : List Constraint) (seen : List String) :
    (validate_loop cs seen).isOk = true ↔
      (cs.map Constraint.name).Nodup ∧
      ∀ nm ∈ cs.map Constraint.name, nm ∉ seen := by
  induction cs generalizing seen with
  | nil => simp [validate_loop, Except.isOk, Except.toBool]
  | cons c rest ih =>
    by_cases hmem : c.name ∈ seen
    · simp only [validate_loop, if_pos hmem]
      constructor
      · intro hcontra
        simp [Except.isOk, Except.toBool] at hcontra
      · rintro ⟨-, hall⟩
        exact absurd hmem (hall c.name (by simp))
    · simp only [validate_loop, if_neg hmem]
      rw [ih (c.name :: seen)]
      simp only [List.map_cons, List.nodup_cons, List.mem_cons]
      constructor
      · rintro ⟨hnodup, hall⟩
        refine ⟨⟨?_, hnodup⟩, ?_⟩
        · intro hcn
          exact (hall c.name hcn) (Or.inl rfl)
        · rintro nm (rfl | hnm)
          · exact hmem
          · intro hns
            exact hall nm hnm (Or.inr hns)
      · rintro ⟨⟨hcn, hnodup⟩, hall⟩
        refine ⟨hnodup, ?_⟩
        intro nm hnm hns
        rcases hns with rfl | hns2
        · exact hcn hnm
        · exact hall nm (Or.inr hnm) hns2

/-- Any error produced by the validation loop is a duplicate-name error
naming one of the constraints. -/
theorem validate_loop_error_shape (cs : List Constraint) (seen : List String)
    (msg : String) (h : validate_loop cs seen = Except.error msg) :
    ∃ nm ∈ cs.map Constraint.name,
      msg = "Duplicate constraint name: " ++ nm := by
  induction cs generalizing seen with
  | nil => simp [validate_loop] at h
  | cons c rest ih =>
    by_cases hmem : c.name ∈ seen
    · simp only [validate_loop, if_pos hmem, Except.error.injEq] at h
      exact ⟨c.name, by simp, h.symm⟩
    · simp only [validate_loop, if_neg hmem] at h
      obtain ⟨nm, hnm, hmsg⟩ := ih (c.name :: seen) h
      exact ⟨nm, List.mem_cons_of_mem _ hnm, hmsg⟩

/-- C6: constructing the engine succeeds exactly when all constraint
names are unique; with a duplicate it fails, and the construction error
is the duplicate-name error naming one of the constraints. -/
theorem claim6_duplicate_name_construction
    (cs : List Constraint) (name : Option String) :
    ((CuraFrame.make cs name).isOk = true ↔
      (cs.map Constraint.name).Nodup) ∧
    (¬(cs.map Constraint.name).Nodup →
      ∃ nm ∈ cs.map Constraint.name,
        CuraFrame.make cs name =
          Except.error ("Duplicate constraint name: " ++ nm)) := by
  have hok : (CuraFrame.make cs name).isOk =
      (validate_loop cs []).isOk := by
    unfold CuraFrame.make
    cases validate_loop cs [] <;> rfl
  constructor
  · rw [hok, validate_loop_isOk_iff]
    simp
  · intro hdup
    have hnotok : ¬(validate_loop cs []).isOk = true := by
      rw [validate_loop_isOk_iff]
      intro hcontra
      exact hdup hcontra.1
    cases hv : validate_loop cs [] with
    | ok u => rw [hv] at hnotok; exact absurd rfl hnotok
    | error msg =>
      obtain ⟨nm, hnm, hmsg⟩ := validate_loop_error_shape cs [] msg hv
      refine ⟨nm, hnm, ?_⟩
      unfold CuraFrame.make
      rw [hv, hmsg]

/-- Witness for C6: construction succeeds on distinct names and fails
with the duplicate-name error when `logP` appears twice. -/
theorem claim6_witness :
    ((CuraFrame.make [c_logP, c_hERG] Option.none).isOk = true) ∧
    (∃ nm ∈ [c_logP, c_logP].map Constraint.name,
      CuraFrame.make [c_logP, c_logP] Option.none =
        Except.error ("Duplicate constraint name: " ++ nm)) :=
  ⟨(claim6_duplicate_name_construction [c_logP, c_hERG]
      Option.none).1.mpr (by decide),
   (claim6_duplicate_name_construction [c_logP, c_logP]
      Option.none).2 (by decide)⟩

/-- C7 counterexample: a range constraint with invalid bounds (5, 1) is
accepted by engine construction without error — no ConfigurationError is
raised at construction time.  The error surfaces only during
`evaluate()`, which converts it to INDETERMINATE instead of raising. -/
theorem claim7_counterexample :
    (CuraFrame.make [c_bad_range] Option.none).isOk = true ∧
    within_range 3 (5, 1) true =
      Except.error "Invalid bounds: lower (5) > upper (1)" ∧
    (engine_range.evaluate cand_window Option.none true).1.status =
      EvaluationStatus.indeterminate ∧
    (engine_range.evaluate cand_window Option.none true).1.notes =
      Option.some
        "Constraint evaluation error: Cannot compare float to tuple in constraint 'assay_window'" :=
  ⟨rfl, rfl, by decide, by decide⟩

/-- C7 amended: an invalid range bound pair (lower > upper) is not
checked at construction; the range comparator raises the invalid-bounds
error when invoked during `evaluate()`, `Constraint.evaluate` re-raises
it as the uniform comparison error, and `evaluate()` catches that and
returns INDETERMINATE rather than propagating. -/
theorem claim7_invalid_bounds_at_evaluation
    (lo hi v : ℚ) (incl : Bool) (hlt : hi < lo)
    (e : CuraFrame) (cand : Candidate) (population : Option String)
    (strict : Bool) (pre post : List Constraint) (c : Constraint)
    (hsplit : e.population_stratifier.apply population e.safety_constraints =
      pre ++ c :: post)
    (hpre : ∀ c2 ∈ pre, completes_on cand strict c2)
    (hcmp : c.comparator = within_range_cmp)
    (hth : c.threshold = PyVal.pair lo hi)
    (hval : cand.get c.name PyVal.none = PyVal.num v) :
    within_range v (lo, hi) incl =
      Except.error ("Invalid bounds: lower (" ++ toString lo ++
        ") > upper (" ++ toString hi ++ ")") ∧
    (e.evaluate cand population strict).1 =
      { status := EvaluationStatus.indeterminate
        violations := []
        warnings := []
        notes := Option.some
          ("Constraint evaluation error: " ++
            ("Cannot compare float to tuple in constraint '" ++ c.name ++ "'"))
        candidate_name := Option.some cand.name } := by
  have hwr : ∀ b : Bool, within_range v (lo, hi) b =
      Except.error ("Invalid bounds: lower (" ++ toString lo ++
        ") > upper (" ++ toString hi ++ ")") := by
    intro b
    unfold within_range
    rw [if_pos (show (lo, hi).1 > (lo, hi).2 from hlt)]
  refine ⟨hwr incl, ?_⟩
  have herr : c.evaluate (cand.get c.name PyVal.none) =
      Except.error
        ("Cannot compare float to tuple in constraint '" ++ c.name ++ "'") := by
    unfold Constraint.evaluate
    rw [hval, hcmp, hth]
    simp only [within_range_cmp]
    rw [hwr true]
    rfl
  have hval_ne : cand.get c.name PyVal.none ≠ PyVal.none := by
    rw [hval]
    intro hcontra
    cases hcontra
  have hml := eval_loop_comparison_error cand strict pre post c
    ("Cannot compare float to tuple in constraint '" ++ c.name ++ "'")
    [] [] hpre hval_ne herr
  rw [← hsplit] at hml
  rw [evaluate_result_eq]
  simp only [evaluation_outcome, hml]

/-- Witness for C7 (amended): the engine holding the invalid-bounds
range constraint evaluates a numeric candidate to INDETERMINATE with the
wrapped comparison-error notes. -/
theorem claim7_witness :
    ((1 : ℚ) < 5) ∧
    (engine_range.population_stratifier.apply Option.none
        engine_range.safety_constraints = [] ++ c_bad_range :: []) ∧
    (cand_window.get c_bad_range.name PyVal.none = PyVal.num 3) ∧
    (within_range 3 (5, 1) true =
      Except.error ("Invalid bounds: lower (" ++ toString (5 : ℚ) ++
        ") > upper (" ++ toString (1 : ℚ) ++ ")") ∧
     (engine_range.evaluate cand_window Option.none true).1 =
      { status := EvaluationStatus.indeterminate
        violations := []
        warnings := []
        notes := Option.some
          ("Constraint evaluation error: " ++
            ("Cannot compare float to tuple in constraint '" ++
              c_bad_range.name ++ "'"))
        candidate_name := Option.some cand_window.name }) :=
  ⟨by decide, rfl, rfl,
   claim7_invalid_bounds_at_evaluation 5 1 3 true (by decide) engine_range
     cand_window Option.none true [] [] c_bad_range rfl (by decide)
     rfl rfl rfl⟩

/-- C8: over a uniform distribution on `[lower, upper]`,
`probabilistic_satisfaction` accepts exactly when the fraction of the
interval at or below the threshold reaches the (meaningful, in `(0, 1]`)
confidence level, and degenerates to certainty at the interval edges:
true whenever `upper ≤ threshold`, false whenever `lower > threshold`. -/
theorem claim8_probabilistic_satisfaction_uniform
    (nominal lower upper threshold confidence_level : ℚ)
    (hle : lower ≤ upper) (hc0 : 0 < confidence_level)
    (hc1 : confidence_level ≤ 1) :
    (probabilistic_satisfaction (nominal, lower, upper) threshold
        confidence_level = true ↔
      uniform_fraction_at_or_below lower upper threshold ≥
        confidence_level) ∧
    (upper ≤ threshold →
      probabilistic_satisfaction (nominal, lower, upper) threshold
        confidence_level = true) ∧
    (lower > threshold →
      probabilistic_satisfaction (nominal, lower, upper) threshold
        confidence_level = false) := by
  unfold probabilistic_satisfaction uniform_fraction_at_or_below
  by_cases h1 : upper ≤ threshold
  · simp only [if_pos h1]
    exact ⟨⟨fun _ => hc1, fun _ => trivial⟩, fun _ => trivial,
      fun hcontra => absurd (le_trans hle h1) (not_le.mpr hcontra)⟩
  · by_cases h2 : lower > threshold
    · simp only [if_neg h1, if_pos h2]
      refine ⟨?_, fun hcontra => absurd hcontra h1, fun _ => by simp⟩
      constructor
      · intro hcontra
        exact absurd hcontra (by simp)
      · intro hge
        exact absurd hc0 (not_lt.mpr hge)
    · have h3 : ¬threshold < lower := h2
      simp only [if_neg h1, if_neg h2, if_neg h3]
      refine ⟨?_, fun hcontra => absurd hcontra h1,
        fun hcontra => absurd hcontra h2⟩
      exact decide_eq_true_iff

/-- Witness for C8: a value uniform in `[8, 12]` against threshold 10 at
the 95% confidence level — the satisfied fraction is 1/2, below 19/20. -/
theorem claim8_witness :
    ((8 : ℚ) ≤ 12 ∧ (0 : ℚ) < 19/20 ∧ (19 : ℚ)/20 ≤ 1) ∧
    ((probabilistic_satisfaction (10, 8, 12) 10 (19/20) = true ↔
       uniform_fraction_at_or_below 8 12 10 ≥ 19/20) ∧
     ((12 : ℚ) ≤ 10 →
       probabilistic_satisfaction (10, 8, 12) 10 (19/20) = true) ∧
     ((8 : ℚ) > 10 →
       probabilistic_satisfaction (10, 8, 12) 10 (19/20) = false)) :=
  ⟨⟨by norm_num, by norm_num, by norm_num⟩,
   claim8_probabilistic_satisfaction_uniform 10 8 12 10 (19/20)
     (by norm_num) (by norm_num) (by norm_num)⟩

/-- The evaluation loop depends on the candidate only through its
property reads: two candidates returning the same value for every
property produce the same loop outcome. -/
theorem eval_loop_congr_candidate (c1 c2 : Candidate)
    (h : ∀ s, c1.get s PyVal.none = c2.get s PyVal.none) (strict : Bool)
    (cs : List Constraint) (vs : List Violation) (ws : List String) :
    eval_loop c1 strict cs vs ws = eval_loop c2 strict cs vs ws := by
  induction cs generalizing vs ws with
  | nil => rfl
  | cons c rest ih =>
    by_cases hv : c1.get c.name PyVal.none = PyVal.none
    · have hv2 : c2.get c.name PyVal.none = PyVal.none := (h c.name) ▸ hv
      simp only [eval_loop]
      rw [if_pos hv, if_pos hv2]
      cases strict with
      | true => rfl
      | false => exact ih _ _
    · have hv2 : ¬c2.get c.name PyVal.none = PyVal.none := (h c.name) ▸ hv
      simp only [eval_loop]
      rw [if_neg hv, if_neg hv2]
      have hev : c.evaluate (c1.get c.name PyVal.none) =
          c.evaluate (c2.get c.name PyVal.none) := by rw [h c.name]
      have hmv : make_violation c1 c = make_violation c2 c := by
        unfold make_violation
        rw [h c.name]
      rw [hev, hmv]
      cases c.evaluate (c2.get c.name PyVal.none) with
      | error e => rfl
      | ok b =>
        cases b with
        | true => exact ih _ _
        | false => exact ih _ _

/-- `evaluation_outcome` depends on the candidate only through its name
and its property reads. -/
theorem evaluation_outcome_congr_candidate
    (stratifier : PopulationStratification) (base : List Constraint)
    (population : Option String) (strict : Bool) (c1 c2 : Candidate)
    (hname : c1.name = c2.name)
    (h : ∀ s, c1.get s PyVal.none = c2.get s PyVal.none) :
    evaluation_outcome stratifier base c1 population strict =
      evaluation_outcome stratifier base c2 population strict := by
  simp only [evaluation_outcome]
  rw [eval_loop_congr_candidate c1 c2 h strict
    (stratifier.apply population base) [] [], hname]

/-- C10: a property present in the candidate's mapping but bound to the
`None` sentinel is indistinguishable from an absent property through
`Candidate.get`/`evaluate()`: `get` returns `None` for both shapes, every
engine returns the same result for both candidates, and when the value
read is `None` the loop consults nothing of the constraint beyond its
name — in particular its comparator is never invoked. -/
theorem claim10_none_property_equals_absent
    (nm n : String) (p : String → Option PyVal) (prov : Option String)
    (unc : String → Option (ℚ × ℚ)) :
    (Candidate.mk nm
      (fun m => if m = n then Option.some PyVal.none else p m) prov
      unc).get n PyVal.none = PyVal.none ∧
    (Candidate.mk nm
      (fun m => if m = n then Option.none else p m) prov
      unc).get n PyVal.none = PyVal.none ∧
    (∀ (e : CuraFrame) (population : Option String) (strict : Bool),
      (e.evaluate (Candidate.mk nm
        (fun m => if m = n then Option.some PyVal.none else p m) prov unc)
        population strict).1 =
      (e.evaluate (Candidate.mk nm
        (fun m => if m = n then Option.none else p m) prov unc)
        population strict).1) ∧
    (∀ (cand : Candidate) (strict : Bool) (c c2 : Constraint)
        (rest : List Constraint) (vs : List Violation) (ws : List String),
      cand.get c.name PyVal.none = PyVal.none → c2.name = c.name →
      eval_loop cand strict (c :: rest) vs ws =
        eval_loop cand strict (c2 :: rest) vs ws) := by
  refine ⟨by simp [Candidate.get], by simp [Candidate.get], ?_, ?_⟩
  · intro e population strict
    rw [evaluate_result_eq, evaluate_result_eq]
    apply evaluation_outcome_congr_candidate
    · rfl
    · intro s
      by_cases hs : s = n <;> simp [Candidate.get, hs]
  · intro cand strict c c2 rest vs ws hv hn
    have hv2 : cand.get c2.name PyVal.none = PyVal.none := by rw [hn, hv]
    have hsw : skip_warning c2 = skip_warning c := by
      unfold skip_warning
      rw [hn]
    simp only [eval_loop]
    rw [if_pos hv, if_pos hv2, hn, hsw]

/-- Witness for C10: with `hERG_IC50` bound to `None` versus absent, the
three-constraint engine returns the same INDETERMINATE result, and the
missing-property step ignores the constraint's comparator. -/
theorem claim10_witness :
    ((Candidate.mk "nulled"
      (fun m => if m = "hERG_IC50" then Option.some PyVal.none
        else cand_missing.properties m) Option.none
      (fun _ => Option.none)).get "hERG_IC50" PyVal.none = PyVal.none) ∧
    ((engine3.evaluate (Candidate.mk "nulled"
      (fun m => if m = "hERG_IC50" then Option.some PyVal.none
        else cand_missing.properties m) Option.none
      (fun _ => Option.none)) Option.none true).1 =
     (engine3.evaluate (Candidate.mk "nulled"
      (fun m => if m = "hERG_IC50" then Option.none
        else cand_missing.properties m) Option.none
      (fun _ => Option.none)) Option.none true).1) ∧
    (eval_loop cand_missing true (c_hERG :: [c_beta1]) [] [] =
      eval_loop cand_missing true
        ({ c_hERG with comparator := fun _ _ => Except.error "never" } ::
          [c_beta1]) [] []) :=
  ⟨(claim10_none_property_equals_absent "nulled" "hERG_IC50"
      cand_missing.properties Option.none (fun _ => Option.none)).1,
   (claim10_none_property_equals_absent "nulled" "hERG_IC50"
      cand_missing.properties Option.none (fun _ => Option.none)).2.2.1
      engine3 Option.none true,
   (claim10_none_property_equals_absent "nulled" "hERG_IC50"
      cand_missing.properties Option.none (fun _ => Option.none)).2.2.2
      cand_missing true c_hERG
      { c_hERG with comparator := fun _ _ => Except.error "never" }
      [c_beta1] [] [] rfl rfl⟩

/-- Witness for C9: the first constraint of the run produces a violation
and an advisory warning, the second aborts with a comparison error, and
the returned result nevertheless has empty violations and warnings. -/
theorem claim9_witness :
    ((engine3.evaluate cand_badtype Option.none false).1.status =
      EvaluationStatus.indeterminate) ∧
    ((engine3.evaluate cand_badtype Option.none false).1.violations = [] ∧
     (engine3.evaluate cand_badtype Option.none false).1.warnings = []) :=
  ⟨by decide,
   claim9_indeterminate_discards_findings engine3 cand_badtype Option.none
     false (by decide)⟩

end Cura
